import Mathlib

/-!
Verification of the MAX chat-bot message pipeline.

The development embeds the dispatcher (`MAXChatBot.process_message`,
`add_command_handler`, `add_message_handler`), the default commands, the
webhook ingress endpoint (`webhook_server.webhook`) and the sliding-window
rate limiter.  Side effects of the Python code (HTTP sends, logging, durable
store writes) are reified as an `Effect` trace; a handler is a function from
its arguments to a `HandlerOutcome` that either returns normally with the
effects it performed or raises after performing a prefix of its effects.
Python strings are embedded as Lean `String`, with the string operations
(`lower`, `split`, `startswith`) re-defined by structural recursion over the
character list so that they evaluate inside the kernel; case mapping is
modelled for the ASCII range, which covers every command token in the
repository.
-/

namespace MaxBot

/-! ### Python string primitives -/

/-- Python `str.lower`, modelled on the ASCII range. -/
def pyLower (s : String) : String := ⟨s.data.map Char.toLower⟩

/-- Character-list version of Python `str.startswith`. -/
def charsStartWith : List Char → List Char → Bool
  | _, [] => true
  | [], _ :: _ => false
  | a :: as, b :: bs => a = b && charsStartWith as bs

/-- Python `str.startswith`. -/
def pyStartsWith (s pre : String) : Bool := charsStartWith s.data pre.data

/-- Accumulating splitter behind `pySplit`: splits on runs of whitespace,
dropping empty tokens, exactly like Python `str.split()` with no argument. -/
def wordsAux : List Char → List Char → List (List Char)
  | [], acc => if acc = [] then [] else [acc.reverse]
  | c :: rest, acc =>
    if c.isWhitespace then
      (if acc = [] then wordsAux rest [] else acc.reverse :: wordsAux rest [])
    else wordsAux rest (c :: acc)

/-- Python `str.split()` (no separator argument). -/
def pySplit (s : String) : List String := (wordsAux s.data []).map (fun l => ⟨l⟩)

/-! ### Effects and handlers -/

/-- One observable side effect of processing.  `send` is a call to
`MAXChatBot.send_message`; `updateUserData` and `setGlobalData` are the
Durable Store mutations of `DatabaseManager` (available to handlers, never
emitted by the dispatcher itself). -/
inductive Effect where
  | send (chatId : String) (text : String)
  | logInfo (msg : String)
  | logError (msg : String)
  | updateUserData (userId : String)
  | setGlobalData (key : String)
  deriving Repr, DecidableEq

/-- Whether an effect is an outbound message to a conversation. -/
def Effect.isSend : Effect → Bool
  | .send _ _ => true
  | _ => false

/-- Whether an effect mutates the Durable Store. -/
def Effect.isStore : Effect → Bool
  | .updateUserData _ => true
  | .setGlobalData _ => true
  | _ => false

/-! ### Inbound update shape: message.get("chat", dict).get("id") etc. -/

/-- The `chat` sub-dict of an inbound message; `id` may be absent. -/
structure Chat where
  id : Option String
  deriving Repr, DecidableEq

/-- The `from` sub-dict of an inbound message. -/
structure Sender where
  id : Option String
  username : Option String
  deriving Repr, DecidableEq

/-- An inbound message dict.  Every field the source reads with `.get` is an
`Option`; absent keys are `none`. -/
structure Message where
  chat : Option Chat
  text : Option String
  messageId : Option String
  fromUser : Option Sender
  deriving Repr, DecidableEq

/-- `message.get("chat", dict()).get("id")`. -/
def chatIdOf (m : Message) : Option String := (m.chat.getD { id := none }).id

/-- Result of invoking a Python handler: normal return with its effect list,
or an exception raised after a prefix of its effects was already performed. -/
inductive HandlerOutcome where
  | ok (effects : List Effect)
  | raises (effects : List Effect) (exn : String)

/-- Effects a handler actually performed, whether or not it raised. -/
def outcomeEffects : HandlerOutcome → List Effect
  | .ok effs => effs
  | .raises effs _ => effs

/-- A command handler is called as `handler(chat_id, args, message)`. -/
def CommandHandler : Type := String → List String → Message → HandlerOutcome

/-- A fallback text handler is called as `handler(chat_id, text, message)`. -/
def TextHandler : Type := String → String → Message → HandlerOutcome

/-! ### Python dict, restricted to what the command registry uses -/

/-- Python dict assignment `d[k] = v`: overwrite in place when the key is
present (insertion order kept), append otherwise. -/
def dictInsert (d : List (String × α)) (k : String) (v : α) : List (String × α) :=
  if d.any (fun p => p.1 = k) then
    d.map (fun p => if p.1 = k then (k, v) else p)
  else d ++ [(k, v)]

/-- Python `d[k]` guarded by `k in d`. -/
def dictLookup (d : List (String × α)) (k : String) : Option α :=
  match d.find? (fun p => p.1 = k) with
  | some p => some p.2
  | none => none

/-! ### The bot (class MAXChatBot) -/

/-- The mutable state of a `MAXChatBot` instance that the dispatcher
consults: the command registry and the fallback text handlers. -/
structure Bot where
  token : String
  commands : List (String × CommandHandler)
  messageHandlers : List TextHandler

/-- `MAXChatBot.add_command_handler`: stores the handler under the
lower-cased token. -/
def add_command_handler (b : Bot) (command : String) (handler : CommandHandler) : Bot :=
  { b with commands := dictInsert b.commands (pyLower command) handler }

/-- `MAXChatBot.add_message_handler`: appends to the fallback chain. -/
def add_message_handler (b : Bot) (handler : TextHandler) : Bot :=
  { b with messageHandlers := b.messageHandlers ++ [handler] }

/-- The generic reply sent when a command handler raises. -/
def commandErrorText : String := "Произошла ошибка при выполнении команды."

/-- The reply sent for an unregistered command token. -/
def unknownCommandText (command : String) : String :=
  "Неизвестная команда: " ++ command ++ "\nИспользуйте /help для списка команд."

/-- Dispatch to a found command handler, converting a raised exception into
an error log plus the generic error reply (lines 158-163 of the source). -/
def runCommandHandler (h : CommandHandler) (chatId : String) (args : List String)
    (m : Message) (command : String) : List Effect :=
  match h chatId args m with
  | .ok effs => effs
  | .raises effs e =>
      effs ++ [Effect.logError ("Ошибка выполнения команды " ++ command ++ ": " ++ e),
               Effect.send chatId commandErrorText]

/-- Invoke one fallback text handler, converting a raised exception into an
error log only (lines 168-172 of the source: no reply is sent). -/
def runTextHandler (h : TextHandler) (chatId : String) (text : String)
    (m : Message) : List Effect :=
  match h chatId text m with
  | .ok effs => effs
  | .raises effs e => effs ++ [Effect.logError ("Ошибка в обработчике сообщений: " ++ e)]

/-- The info-level log emitted for every message that passes the chat-id
check (line 150 of the source). -/
def receivedLog (m : Message) : Effect :=
  Effect.logInfo ("Получено сообщение от "
    ++ ((m.fromUser.getD { id := none, username := none }).username.getD "Unknown")
    ++ ": " ++ m.text.getD "")

/-- `MAXChatBot.process_message`, returning the trace of effects it
performs.  Mirrors lines 139-175 of `max_chatbot.py`: bail out on a missing
or falsy chat id; log the message; if the text starts with `/`, split it,
lower-case the first token, and dispatch to the registry (unknown token:
one reply; handler exception: log plus one generic reply); otherwise run
every fallback handler in order, logging each one's exception. -/
def process_message (b : Bot) (m : Message) : List Effect :=
  let text := m.text.getD ""
  match chatIdOf m with
  | none => []
  | some chatId =>
    if chatId = "" then []
    else
      receivedLog m ::
        (if pyStartsWith text "/" then
          let command := pyLower ((pySplit text).headD "")
          let args := (pySplit text).tail
          match dictLookup b.commands command with
          | some h => runCommandHandler h chatId args m command
          | none => [Effect.send chatId (unknownCommandText command)]
        else
          (b.messageHandlers.map (fun h => runTextHandler h chatId text m)).flatten)

/-! ### Default commands, registered by `MAXChatBot.__init__` -/

/-- `cmd_start`. -/
def cmd_start : CommandHandler := fun chatId _ _ =>
  .ok [Effect.send chatId ("🤖 Добро пожаловать!\n\nЯ бот для мессенджера MAX.\nИспользуйте /help чтобы увидеть список доступных команд.\n\nГотов к работе! 🚀")]

/-- `cmd_help`. -/
def cmd_help : CommandHandler := fun chatId _ _ =>
  .ok [Effect.send chatId ("📋 Доступные команды:\n\n/start - Запустить бота\n/help - Показать это сообщение\n/time - Показать текущее время\n/echo <текст> - Повторить ваш текст\n/info - Информация о боте\n\n🔧 Дополнительные функции:\n• Отвечает на обычные сообщения\n• Поддерживает отправку изображений\n• Логирование всех действий")]

/-- `cmd_time`; the wall-clock string read from `datetime.now()` is a
parameter of the embedding. -/
def cmd_time (clock : String) : CommandHandler := fun chatId _ _ =>
  .ok [Effect.send chatId ("🕐 Текущее время: " ++ clock)]

/-- `cmd_echo`. -/
def cmd_echo : CommandHandler := fun chatId args _ =>
  if args.isEmpty then .ok [Effect.send chatId "Используйте: /echo <ваш текст>"]
  else .ok [Effect.send chatId ("🔊 Эхо: " ++ String.intercalate " " args)]

/-- `cmd_info`. -/
def cmd_info : CommandHandler := fun chatId _ _ =>
  .ok [Effect.send chatId ("ℹ️ Информация о боте:\n\n🤖 Название: MAX Chat Bot\n📅 Версия: 1.0.0\n🐍 Python: 3.8+\n⚡ Статус: Активен\n\nРазработано для мессенджера MAX")]

/-- `MAXChatBot.__init__`: empty handler chain, then
`register_default_commands` registers the five built-ins. -/
def MAXChatBot (token : String) (clock : String) : Bot :=
  add_command_handler
    (add_command_handler
      (add_command_handler
        (add_command_handler
          (add_command_handler
            { token := token, commands := [], messageHandlers := [] }
            "/start" cmd_start)
          "/help" cmd_help)
        "/time" (cmd_time clock))
      "/echo" cmd_echo)
    "/info" cmd_info

/-! ### Webhook ingress (webhook_server.py) -/

/-- The parsed JSON body of a webhook push; the endpoint only looks for the
`message` key. -/
structure WebhookUpdate where
  message : Option Message

/-- An inbound webhook HTTP request: headers, raw body, and the result of
`request.get_json()` (`none` when the body yields no data). -/
structure WebhookRequest where
  headers : List (String × String)
  body : String
  parsedJson : Option WebhookUpdate

/-- The HTTP response of the webhook endpoint: status code plus the error
string of the JSON payload, if any. -/
structure WebhookResponse where
  status : Nat
  errorKey : Option String
  deriving Repr, DecidableEq

/-- The body-handling part of the `webhook` endpoint, after validation:
reject an empty parse with 400, otherwise start one `process_message` task
for the `message` field when present and answer 200. -/
def webhookBody (req : WebhookRequest) : WebhookResponse × List Message :=
  match req.parsedJson with
  | none => ({ status := 400, errorKey := some "No data provided" }, [])
  | some data =>
    match data.message with
    | some msg => ({ status := 200, errorKey := none }, [msg])
    | none => ({ status := 200, errorKey := none }, [])

/-- The `/webhook` Flask endpoint (lines 36-60 of `webhook_server.py`).  The
configured validator is `none` when the global `validator` is unset; the
second component of the result is the list of messages for which a
`process_message` thread is started. -/
def webhook (validator : Option (List (String × String) → String → Bool))
    (req : WebhookRequest) : WebhookResponse × List Message :=
  match validator with
  | some v =>
    if v req.headers req.body then webhookBody req
    else ({ status := 403, errorKey := some "Invalid signature" }, [])
  | none => webhookBody req

/-! ### Rate limiter -/

/-- Modelled from the spec: the `RateLimiter` class lives in `utils.py`,
which is absent from the sources (only its import sites and unit tests are
present).  Per §4.1 of the spec it is configured with a positive
`max_requests` and a `window_seconds` duration. -/
structure RateLimiter where
  max_requests : Nat
  window_seconds : Nat

/-- Modelled from the spec (§4.1): keep, for one identity, exactly the
admission timestamps strictly newer than `now - window_seconds`.  Over
integer timestamps, `t > now - w` is `now < t + w`. -/
def RateLimiter.pruneWindow (rl : RateLimiter) (window : List Nat) (now : Nat) : List Nat :=
  window.filter (fun t => now < t + rl.window_seconds)

/-- Modelled from the spec (§4.1): `is_allowed(identity, now)`.  The state
maps each identity to its list of admitted timestamps.  Prune the caller's
window, then admit (append `now`, return true) iff the remaining count is
below `max_requests`; otherwise return false without recording the
rejected attempt. -/
def RateLimiter.is_allowed (rl : RateLimiter) (requests : String → List Nat)
    (identity : String) (now : Nat) : Bool × (String → List Nat) :=
  let kept := rl.pruneWindow (requests identity) now
  if kept.length < rl.max_requests then
    (true, fun id2 => if id2 = identity then kept ++ [now] else requests id2)
  else
    (false, fun id2 => if id2 = identity then kept else requests id2)

/-! ### Derived observations on traces -/

/-- Number of occurrences of the outbound message `text` to `chatId` in a
trace. -/
def countSend (trace : List Effect) (chatId text : String) : Nat :=
  (trace.filter (fun eff => decide (eff = Effect.send chatId text))).length

/-- A trace contains no Durable Store mutation. -/
def storeFree (l : List Effect) : Bool := l.all (fun eff => !eff.isStore)

/-- Number of registry entries stored under key `k`. -/
def keyCount (d : List (String × α)) (k : String) : Nat :=
  (d.filter (fun p => p.1 = k)).length

/-! ### Concrete instances used to exercise the theorems -/

/-- A bot exactly as `MAXChatBot.__init__` builds it. -/
def demoBot : Bot := MAXChatBot "token" "2025-01-01 00:00:00"

/-- The integration-test `/start` update of `test_bot.py`, with string ids. -/
def startMsg : Message :=
  { chat := some { id := some "123" }, text := some "/start",
    messageId := some "1", fromUser := some { id := some "42", username := some "testuser" } }

/-- An update carrying an unregistered command. -/
def unknownMsg : Message :=
  { chat := some { id := some "123" }, text := some "/unknown",
    messageId := some "1", fromUser := some { id := some "123", username := some "testuser" } }

/-- A command handler that raises immediately. -/
def boomCommand : CommandHandler := fun _ _ _ => HandlerOutcome.raises [] "boom"

/-- The demo bot with the raising command registered under `/boom`. -/
def boomBot : Bot := add_command_handler demoBot "/boom" boomCommand

/-- An update invoking the raising command. -/
def boomMsg : Message :=
  { chat := some { id := some "123" }, text := some "/boom now",
    messageId := none, fromUser := some { id := some "5", username := some "u" } }

/-- A fallback text handler that raises immediately. -/
def boomText : TextHandler := fun _ _ _ => HandlerOutcome.raises [] "fail"

/-- A fallback text handler that answers with a fixed reply. -/
def pingText : TextHandler := fun chatId _ _ => HandlerOutcome.ok [Effect.send chatId "pong"]

/-- The demo bot with the raising text handler as its only fallback. -/
def silentBot : Bot := add_message_handler demoBot boomText

/-- The demo bot with fallback chain `[pingText, boomText, pingText]`. -/
def chainBot : Bot :=
  add_message_handler (add_message_handler (add_message_handler demoBot pingText) boomText) pingText

/-- A plain-text (non-command) update. -/
def plainMsg : Message :=
  { chat := some { id := some "123" }, text := some "привет",
    messageId := none, fromUser := some { id := some "7", username := some "u" } }

/-- A handler used to exercise case-insensitive registration. -/
def greetCommand : CommandHandler := fun chatId args _ =>
  HandlerOutcome.ok [Effect.send chatId (String.intercalate " " args)]

/-- An update whose command token is an upper-case variant of `/Greet`. -/
def greetMsg : Message :=
  { chat := some { id := some "123" }, text := some "/GREET hello world",
    messageId := none, fromUser := some { id := some "8", username := some "v" } }

/-! ### Helper lemmas -/

/-- Inserting under a key different from the head key keeps the head. -/
theorem dictInsert_cons_ne (k₁ : String) (v₁ : α) (d : List (String × α)) (k : String) (v : α)
    (hne : k₁ ≠ k) :
    dictInsert ((k₁, v₁) :: d) k v = (k₁, v₁) :: dictInsert d k v := by
  by_cases hd : d.any (fun p => p.1 = k) = true
  · simp [dictInsert, List.any_cons, hne, hd]
  · simp [dictInsert, List.any_cons, hne, hd]

/-- Looking up the freshly inserted key finds the new value. -/
theorem dictLookup_dictInsert_self (d : List (String × α)) (k : String) (v : α) :
    dictLookup (dictInsert d k v) k = some v := by
  induction d with
  | nil => simp [dictInsert, dictLookup]
  | cons p rest ih =>
    obtain ⟨k₁, v₁⟩ := p
    by_cases hk : k₁ = k
    · subst hk
      simp [dictInsert, List.any_cons, dictLookup]
    · rw [dictInsert_cons_ne k₁ v₁ rest k v hk]
      unfold dictLookup
      rw [List.find?_cons_of_neg _ (by simp [hk])]
      exact ih

/-- A successful lookup means the pair is in the dict. -/
theorem dictLookup_mem {d : List (String × α)} {k : String} {v : α}
    (hl : dictLookup d k = some v) : (k, v) ∈ d := by
  unfold dictLookup at hl
  cases hfind : d.find? (fun p => p.1 = k) with
  | none => rw [hfind] at hl; cases hl
  | some p =>
    rw [hfind] at hl
    have hk : p.1 = k := by simpa using List.find?_some hfind
    have hv : p.2 = v := Option.some.inj hl
    have hp : p = (k, v) := by
      obtain ⟨a, b⟩ := p
      simp_all
    rw [← hp]
    exact List.mem_of_find?_eq_some hfind

/-- Overwriting the values stored under `k` does not change how many
entries carry the key `k`. -/
theorem keyCount_map_overwrite (d : List (String × α)) (k : String) (v : α) :
    keyCount (d.map (fun p => if p.1 = k then (k, v) else p)) k = keyCount d k := by
  induction d with
  | nil => rfl
  | cons p rest ih =>
    by_cases hk : p.1 = k
    · simpa [keyCount, List.filter_cons, hk] using ih
    · simpa [keyCount, List.filter_cons, hk] using ih

/-- Dict assignment leaves exactly one entry under the assigned key,
provided the dict was not already corrupted with duplicates. -/
theorem keyCount_dictInsert (d : List (String × α)) (k : String) (v : α)
    (hle : keyCount d k ≤ 1) : keyCount (dictInsert d k v) k = 1 := by
  induction d with
  | nil => simp [dictInsert, keyCount, List.filter_cons]
  | cons p rest ih =>
    obtain ⟨k₁, v₁⟩ := p
    by_cases hk : k₁ = k
    · have hcond : ((k₁, v₁) :: rest).any (fun p => p.1 = k) = true := by
        simp [List.any_cons, hk]
      rw [dictInsert, if_pos hcond]
      have hmap := keyCount_map_overwrite rest k v
      have hcons : keyCount ((k₁, v₁) :: rest) k = keyCount rest k + 1 := by
        simp [keyCount, List.filter_cons, hk]
      rw [List.map_cons]
      have hhead : (if (k₁, v₁).1 = k then (k, v) else (k₁, v₁)) = (k, v) := by simp [hk]
      rw [hhead]
      have hcons2 : keyCount ((k, v) :: rest.map (fun p => if p.1 = k then (k, v) else p)) k
          = keyCount (rest.map (fun p => if p.1 = k then (k, v) else p)) k + 1 := by
        simp [keyCount, List.filter_cons]
      omega
    · rw [dictInsert_cons_ne k₁ v₁ rest k v hk]
      have hle2 : keyCount rest k ≤ 1 := by
        simpa [keyCount, List.filter_cons, hk] using hle
      simpa [keyCount, List.filter_cons, hk] using ih hle2

/-- Claim C10: an inbound message whose conversation identifier is absent
or falsy makes `process_message` return at once: no outbound message, no
handler invocation, no state mutation — the effect trace is empty. -/
theorem process_message_missing_chat (b : Bot) (m : Message)
    (h : chatIdOf m = none ∨ chatIdOf m = some "") :
    process_message b m = [] := by
  unfold process_message
  rcases h with h | h <;> simp [h]

/-- Witness for the C10 theorem at a concrete chat-less update. -/
theorem process_message_missing_chat_witness :
    process_message demoBot
      { chat := some { id := none }, text := some "hello", messageId := none, fromUser := none }
      = [] :=
  process_message_missing_chat demoBot
    { chat := some { id := none }, text := some "hello", messageId := none, fromUser := none }
    (Or.inl rfl)

/-- Claim C3: a command-prefixed update whose lower-cased first token is
not registered invokes no handler and produces exactly one outbound reply,
the unknown-command message. -/
theorem process_message_unknown_command (b : Bot) (m : Message) (chatId : String)
    (hchat : chatIdOf m = some chatId) (hne : chatId ≠ "")
    (hslash : pyStartsWith (m.text.getD "") "/" = true)
    (hlook : dictLookup b.commands (pyLower ((pySplit (m.text.getD "")).headD "")) = none) :
    process_message b m =
      [receivedLog m,
       Effect.send chatId (unknownCommandText (pyLower ((pySplit (m.text.getD "")).headD "")))] := by
  have hlook2 := hlook
  simp only [List.headD_eq_head?_getD] at hlook2
  unfold process_message
  simp [hchat, hne, hslash, hlook2]

/-- Witness for the C3 theorem: the `/unknown` update of the integration
test produces exactly the unknown-command reply. -/
theorem process_message_unknown_command_witness :
    process_message demoBot unknownMsg =
      [receivedLog unknownMsg,
       Effect.send "123" (unknownCommandText (pyLower ((pySplit (unknownMsg.text.getD "")).headD "")))] :=
  process_message_unknown_command demoBot unknownMsg "123" rfl (by decide) (by decide) rfl

/-- Claim C6: when the configured webhook validator rejects a request, the
endpoint answers 403 with the authentication-failure payload, starts no
message-handling task, and touches no other state — whatever the request
body parsed to. -/
theorem webhook_rejects_invalid (v : List (String × String) → String → Bool)
    (req : WebhookRequest) (hv : v req.headers req.body = false) :
    webhook (some v) req = ({ status := 403, errorKey := some "Invalid signature" }, []) := by
  unfold webhook
  simp [hv]

/-- Witness for the C6 theorem: a rejecting validator blocks a request even
though its body carries a pending message. -/
theorem webhook_rejects_invalid_witness :
    webhook (some (fun _ _ => false))
      { headers := [("X-Signature", "bad")], body := "body",
        parsedJson := some { message := some startMsg } } =
      ({ status := 403, errorKey := some "Invalid signature" }, []) :=
  webhook_rejects_invalid (fun _ _ => false)
    { headers := [("X-Signature", "bad")], body := "body",
      parsedJson := some { message := some startMsg } } rfl

/-- A raising text handler contributes its partial effects followed by one
error log — nothing else. -/
theorem runTextHandler_raises {th : TextHandler} {chatId text : String} {m : Message}
    {effs : List Effect} {e : String}
    (hr : th chatId text m = HandlerOutcome.raises effs e) :
    runTextHandler th chatId text m
      = effs ++ [Effect.logError ("Ошибка в обработчике сообщений: " ++ e)] := by
  unfold runTextHandler
  rw [hr]

/-- Claim C2: when the registered command handler of an update raises, the
exception is caught (the dispatcher returns a trace instead of
propagating), the failure is logged, and exactly one generic
error-executing-command reply is appended for that conversation. -/
theorem process_message_command_handler_exception (b : Bot) (m : Message)
    (chatId : String) (h : CommandHandler) (effs : List Effect) (e : String)
    (hchat : chatIdOf m = some chatId) (hne : chatId ≠ "")
    (hslash : pyStartsWith (m.text.getD "") "/" = true)
    (hlook : dictLookup b.commands (pyLower ((pySplit (m.text.getD "")).headD "")) = some h)
    (hrun : h chatId ((pySplit (m.text.getD "")).tail) m = HandlerOutcome.raises effs e) :
    process_message b m =
      receivedLog m ::
        (effs ++ [Effect.logError ("Ошибка выполнения команды "
                    ++ pyLower ((pySplit (m.text.getD "")).headD "") ++ ": " ++ e),
                  Effect.send chatId commandErrorText]) ∧
    countSend (process_message b m) chatId commandErrorText
      = countSend effs chatId commandErrorText + 1 := by
  have hlook2 := hlook
  simp only [List.headD_eq_head?_getD] at hlook2
  have htr : process_message b m =
      receivedLog m ::
        (effs ++ [Effect.logError ("Ошибка выполнения команды "
                    ++ pyLower ((pySplit (m.text.getD "")).headD "") ++ ": " ++ e),
                  Effect.send chatId commandErrorText]) := by
    unfold process_message
    simp [hchat, hne, hslash, hlook2, runCommandHandler, hrun]
  refine ⟨htr, ?_⟩
  rw [htr]
  simp [countSend, List.filter_cons, List.filter_append, receivedLog]

/-- Witness for the C2 theorem: the `/boom` handler raises and the trace
carries exactly one generic error reply. -/
theorem process_message_command_handler_exception_witness :
    process_message boomBot boomMsg =
      receivedLog boomMsg ::
        ([] ++ [Effect.logError ("Ошибка выполнения команды "
                  ++ pyLower ((pySplit (boomMsg.text.getD "")).headD "") ++ ": " ++ "boom"),
                Effect.send "123" commandErrorText]) ∧
    countSend (process_message boomBot boomMsg) "123" commandErrorText
      = countSend [] "123" commandErrorText + 1 :=
  process_message_command_handler_exception boomBot boomMsg "123" boomCommand [] "boom"
    rfl (by decide) (by decide) rfl rfl

/-- Claim C4: a non-command update runs every registered fallback handler
exactly once, in registration order, and one handler raising does not
suppress the handlers after it: the trace is the concatenation of each
handler's block in order, the raising handler contributing its partial
effects plus an error log. -/
theorem process_message_text_dispatch (b : Bot) (m : Message) (chatId : String)
    (l₁ l₂ : List TextHandler) (th : TextHandler) (effs : List Effect) (e : String)
    (hchat : chatIdOf m = some chatId) (hne : chatId ≠ "")
    (hslash : pyStartsWith (m.text.getD "") "/" = false)
    (hhandlers : b.messageHandlers = l₁ ++ th :: l₂)
    (hrun : th chatId (m.text.getD "") m = HandlerOutcome.raises effs e) :
    process_message b m =
      receivedLog m ::
        (b.messageHandlers.map (fun g => runTextHandler g chatId (m.text.getD "") m)).flatten ∧
    process_message b m =
      receivedLog m ::
        ((l₁.map (fun g => runTextHandler g chatId (m.text.getD "") m)).flatten
          ++ ((effs ++ [Effect.logError ("Ошибка в обработчике сообщений: " ++ e)])
            ++ (l₂.map (fun g => runTextHandler g chatId (m.text.getD "") m)).flatten)) := by
  have h1 : process_message b m =
      receivedLog m ::
        (b.messageHandlers.map (fun g => runTextHandler g chatId (m.text.getD "") m)).flatten := by
    unfold process_message
    simp [hchat, hne, hslash]
  refine ⟨h1, ?_⟩
  rw [h1, hhandlers, List.map_append, List.map_cons, List.flatten_append, List.flatten_cons,
    runTextHandler_raises hrun]

/-- Witness for the C4 theorem: with fallback chain
`[pingText, boomText, pingText]`, the raising middle handler leaves the
last handler's reply in the trace. -/
theorem process_message_text_dispatch_witness :
    process_message chainBot plainMsg =
      receivedLog plainMsg ::
        (chainBot.messageHandlers.map
          (fun g => runTextHandler g "123" (plainMsg.text.getD "") plainMsg)).flatten ∧
    process_message chainBot plainMsg =
      receivedLog plainMsg ::
        (([pingText].map (fun g => runTextHandler g "123" (plainMsg.text.getD "") plainMsg)).flatten
          ++ (([] ++ [Effect.logError ("Ошибка в обработчике сообщений: " ++ "fail")])
            ++ ([pingText].map
                (fun g => runTextHandler g "123" (plainMsg.text.getD "") plainMsg)).flatten)) :=
  process_message_text_dispatch chainBot plainMsg "123" [pingText] [pingText] boomText [] "fail"
    rfl (by decide) (by decide) rfl rfl

/-- Claim C8: command parsing lower-cases the first whitespace-separated
token and passes the remaining tokens as arguments, and registry lookup is
case-insensitive.  Registering a handler under any case variant of a token
dispatches every case variant of that token in an update to it. -/
theorem process_message_case_insensitive (b : Bot) (command : String) (h : CommandHandler)
    (m : Message) (chatId : String)
    (hchat : chatIdOf m = some chatId) (hne : chatId ≠ "")
    (hslash : pyStartsWith (m.text.getD "") "/" = true)
    (htok : pyLower ((pySplit (m.text.getD "")).headD "") = pyLower command) :
    process_message (add_command_handler b command h) m =
      receivedLog m ::
        runCommandHandler h chatId ((pySplit (m.text.getD "")).tail) m (pyLower command) := by
  have htok2 := htok
  simp only [List.headD_eq_head?_getD] at htok2
  unfold process_message
  simp [hchat, hne, hslash, htok2, add_command_handler, dictLookup_dictInsert_self]

/-- Witness for the C8 theorem: `/Greet` registered, `/GREET hello world`
dispatched to it with arguments `["hello", "world"]`. -/
theorem process_message_case_insensitive_witness :
    process_message (add_command_handler demoBot "/Greet" greetCommand) greetMsg =
      receivedLog greetMsg ::
        runCommandHandler greetCommand "123" ((pySplit (greetMsg.text.getD "")).tail) greetMsg
          (pyLower "/Greet") :=
  process_message_case_insensitive demoBot "/Greet" greetCommand greetMsg "123"
    rfl (by decide) (by decide) (by decide)

/-- Claim C9: registering the same command token twice overwrites: the
registry then holds exactly one entry for that token, mapped to the second
handler. -/
theorem add_command_handler_overwrites (b : Bot) (command : String) (h₁ h₂ : CommandHandler)
    (hcount : keyCount b.commands (pyLower command) ≤ 1) :
    dictLookup (add_command_handler (add_command_handler b command h₁) command h₂).commands
        (pyLower command) = some h₂ ∧
    keyCount (add_command_handler (add_command_handler b command h₁) command h₂).commands
        (pyLower command) = 1 := by
  simp only [add_command_handler]
  exact ⟨dictLookup_dictInsert_self _ _ _,
    keyCount_dictInsert _ _ _ (le_of_eq (keyCount_dictInsert _ _ _ hcount))⟩

/-- Witness for the C9 theorem: registering `/test` twice on the default
bot keeps one entry, mapped to the second handler. -/
theorem add_command_handler_overwrites_witness :
    dictLookup (add_command_handler (add_command_handler demoBot "/test" boomCommand)
        "/test" greetCommand).commands (pyLower "/test") = some greetCommand ∧
    keyCount (add_command_handler (add_command_handler demoBot "/test" boomCommand)
        "/test" greetCommand).commands (pyLower "/test") = 1 :=
  add_command_handler_overwrites demoBot "/test" boomCommand greetCommand (by decide)

/-- Refutation of claim C5 at a concrete input: a plain-text update whose
only fallback handler raises is processed into a trace that contains no
outbound message at all — the sender gets silence, with no silent-drop
policy configured anywhere. -/
theorem text_handler_failure_silent_cex :
    process_message silentBot plainMsg =
      [receivedLog plainMsg, Effect.logError ("Ошибка в обработчике сообщений: " ++ "fail")] ∧
    (process_message silentBot plainMsg).all (fun eff => !eff.isSend) = true :=
  ⟨by decide, by decide⟩

/-- Claim C5 (amended): only a command handler's failure produces the
generic notice; a fallback text handler's failure is caught and logged but
sends nothing to the conversation — the dispatcher appends exactly one
error log and no outbound message. -/
theorem text_handler_failure_logged_only (b : Bot) (m : Message) (chatId : String)
    (th : TextHandler) (effs : List Effect) (e : String)
    (hchat : chatIdOf m = some chatId) (hne : chatId ≠ "")
    (hslash : pyStartsWith (m.text.getD "") "/" = false)
    (hhandlers : b.messageHandlers = [th])
    (hrun : th chatId (m.text.getD "") m = HandlerOutcome.raises effs e) :
    process_message b m =
      receivedLog m :: (effs ++ [Effect.logError ("Ошибка в обработчике сообщений: " ++ e)]) := by
  unfold process_message
  simp [hchat, hne, hslash, hhandlers, runTextHandler_raises hrun]

/-- Witness for the C5 amended theorem at the raising fallback handler. -/
theorem text_handler_failure_logged_only_witness :
    process_message silentBot plainMsg =
      receivedLog plainMsg ::
        ([] ++ [Effect.logError ("Ошибка в обработчике сообщений: " ++ "fail")]) :=
  text_handler_failure_logged_only silentBot plainMsg "123" boomText [] "fail"
    rfl (by decide) (by decide) rfl rfl

/-- Prefixing a trace with the info log of a received message does not
affect whether it is store-free. -/
theorem storeFree_cons_receivedLog (m : Message) (l : List Effect) :
    storeFree (receivedLog m :: l) = storeFree l := by
  simp [storeFree, receivedLog, Effect.isStore]

/-- Store-freeness distributes over trace concatenation. -/
theorem storeFree_append (a b : List Effect) :
    storeFree (a ++ b) = (storeFree a && storeFree b) := by
  simp [storeFree, List.all_append]

/-- Command dispatch adds only logs and sends on top of the handler's own
effects, so it preserves store-freeness. -/
theorem storeFree_runCommandHandler {h : CommandHandler} {chatId : String}
    {args : List String} {m : Message} {command : String}
    (hsf : ∀ cid as2, storeFree (outcomeEffects (h cid as2 m)) = true) :
    storeFree (runCommandHandler h chatId args m command) = true := by
  have hh := hsf chatId args
  cases hout : h chatId args m with
  | ok effs =>
    rw [hout] at hh
    simpa [runCommandHandler, hout, outcomeEffects] using hh
  | raises effs e =>
    rw [hout] at hh
    simp only [outcomeEffects] at hh
    have hstep : runCommandHandler h chatId args m command
        = effs ++ [Effect.logError ("Ошибка выполнения команды " ++ command ++ ": " ++ e),
                   Effect.send chatId commandErrorText] := by
      unfold runCommandHandler
      rw [hout]
    rw [hstep, storeFree_append, hh]
    rfl

/-- Text dispatch adds only an error log on top of the handler's own
effects, so it preserves store-freeness. -/
theorem storeFree_runTextHandler {th : TextHandler} {chatId text : String} {m : Message}
    (hsf : ∀ cid t, storeFree (outcomeEffects (th cid t m)) = true) :
    storeFree (runTextHandler th chatId text m) = true := by
  have hh := hsf chatId text
  cases hout : th chatId text m with
  | ok effs =>
    rw [hout] at hh
    simpa [runTextHandler, hout, outcomeEffects] using hh
  | raises effs e =>
    rw [hout] at hh
    simp only [outcomeEffects] at hh
    rw [runTextHandler_raises hout, storeFree_append, hh]
    rfl

/-- A whole fallback chain of store-free handlers yields a store-free
trace. -/
theorem storeFree_textChain (hs : List TextHandler) (chatId text : String) (m : Message)
    (hsf : ∀ th ∈ hs, ∀ cid t, storeFree (outcomeEffects (th cid t m)) = true) :
    storeFree ((hs.map (fun g => runTextHandler g chatId text m)).flatten) = true := by
  induction hs with
  | nil => rfl
  | cons g rest ih =>
    simp only [List.map_cons, List.flatten_cons, storeFree_append, Bool.and_eq_true]
    exact ⟨storeFree_runTextHandler (hsf g (by simp)),
      ih (fun th hth => hsf th (by simp [hth]))⟩

/-- Refutation of claim C1 at a concrete input: the `/start` update is
processed successfully — the trace contains an outbound reply — yet no
global counter is incremented and no UserRecord is updated: the trace is
entirely store-free. -/
theorem process_message_no_accounting_cex :
    storeFree (process_message demoBot startMsg) = true ∧
    (process_message demoBot startMsg).any Effect.isSend = true :=
  ⟨by decide, by decide⟩

/-- Claim C1 (amended): processing an update performs no Durable Store
accounting at all.  As long as the installed handlers themselves emit no
store mutation, the whole trace of `process_message` is store-free: the
dispatcher never increments the global counters and never updates the
sender's UserRecord. -/
theorem process_message_no_store_accounting (b : Bot) (m : Message)
    (hc : ∀ kh ∈ b.commands, ∀ cid args, storeFree (outcomeEffects (kh.2 cid args m)) = true)
    (ht : ∀ th ∈ b.messageHandlers, ∀ cid t, storeFree (outcomeEffects (th cid t m)) = true) :
    storeFree (process_message b m) = true := by
  cases hchat : chatIdOf m with
  | none => unfold process_message; simp [hchat, storeFree]
  | some chatId =>
    by_cases hid : chatId = ""
    · unfold process_message; simp [hchat, hid, storeFree]
    · by_cases hsl : pyStartsWith (m.text.getD "") "/" = true
      · cases hlook : dictLookup b.commands (pyLower ((pySplit (m.text.getD "")).head?.getD "")) with
        | none =>
          have htr : process_message b m =
              [receivedLog m,
               Effect.send chatId
                 (unknownCommandText (pyLower ((pySplit (m.text.getD "")).head?.getD "")))] := by
            unfold process_message
            simp [hchat, hid, hsl, hlook]
          rw [htr]
          simp [storeFree, receivedLog, Effect.isStore]
        | some h =>
          have hmem := dictLookup_mem hlook
          have hsf : ∀ cid args, storeFree (outcomeEffects (h cid args m)) = true :=
            fun cid args =>
              hc (pyLower ((pySplit (m.text.getD "")).head?.getD ""), h) hmem cid args
          have htr : process_message b m =
              receivedLog m ::
                runCommandHandler h chatId ((pySplit (m.text.getD "")).tail) m
                  (pyLower ((pySplit (m.text.getD "")).head?.getD "")) := by
            unfold process_message
            simp [hchat, hid, hsl, hlook]
          rw [htr, storeFree_cons_receivedLog]
          exact storeFree_runCommandHandler hsf
      · have htr : process_message b m =
            receivedLog m ::
              (b.messageHandlers.map
                (fun g => runTextHandler g chatId (m.text.getD "") m)).flatten := by
          unfold process_message
          simp [hchat, hid, hsl]
        rw [htr, storeFree_cons_receivedLog]
        exact storeFree_textChain b.messageHandlers chatId (m.text.getD "") m ht

/-- Witness for the C1 amended theorem: the default bot's handlers emit no
store mutations, so processing the `/start` update leaves the Durable
Store untouched. -/
theorem process_message_no_store_accounting_witness :
    storeFree (process_message demoBot startMsg) = true :=
  process_message_no_store_accounting demoBot startMsg
    (by
      intro kh hkh cid args
      have hcmds : demoBot.commands =
          [("/start", cmd_start), ("/help", cmd_help),
           ("/time", cmd_time "2025-01-01 00:00:00"), ("/echo", cmd_echo),
           ("/info", cmd_info)] := rfl
      rw [hcmds] at hkh
      simp only [List.mem_cons, List.not_mem_nil, or_false] at hkh
      rcases hkh with rfl | rfl | rfl | rfl | rfl
      · rfl
      · rfl
      · rfl
      · cases args <;> rfl
      · rfl)
    (by
      intro th hth
      have hmh : demoBot.messageHandlers = [] := rfl
      rw [hmh] at hth
      simp at hth)

/-- Dropping a member on which the predicate fails strictly shrinks a
filtered list. -/
theorem length_filter_lt_of_mem {p : α → Bool} {l : List α} {a : α}
    (ha : a ∈ l) (hpa : p a = false) : (l.filter p).length < l.length := by
  induction l with
  | nil => cases ha
  | cons x xs ih =>
    rcases List.mem_cons.mp ha with rfl | hmem
    · rw [List.filter_cons_of_neg (by simp [hpa])]
      exact Nat.lt_succ_of_le (List.length_filter_le p xs)
    · by_cases hx : p x = true
      · rw [List.filter_cons_of_pos hx]
        simpa using Nat.succ_lt_succ (ih hmem)
      · rw [List.filter_cons_of_neg (by simpa using hx)]
        exact Nat.lt_succ_of_lt (ih hmem)

/-- Claim C7: with the identity's pruned window already holding
`max_requests` admitted timestamps, the next `is_allowed` call returns
false and stores only the pruned window (the rejected attempt is not
recorded); once more than `window_seconds` have passed since the oldest
admitted timestamp `o`, the following call returns true again. -/
theorem is_allowed_sliding_window (rl : RateLimiter) (requests : String → List Nat)
    (identity : String) (now now2 o : Nat)
    (hlen : (rl.pruneWindow (requests identity) now).length = rl.max_requests)
    (ho : o ∈ rl.pruneWindow (requests identity) now)
    (hmin : ∀ t ∈ rl.pruneWindow (requests identity) now, o ≤ t)
    (hexp : o + rl.window_seconds < now2) :
    (rl.is_allowed requests identity now).1 = false ∧
    (rl.is_allowed requests identity now).2 identity = rl.pruneWindow (requests identity) now ∧
    (rl.is_allowed (rl.is_allowed requests identity now).2 identity now2).1 = true := by
  have hnot : ¬ (rl.pruneWindow (requests identity) now).length < rl.max_requests := by omega
  have hfst : rl.is_allowed requests identity now =
      (false, fun id2 =>
        if id2 = identity then rl.pruneWindow (requests identity) now else requests id2) := by
    unfold RateLimiter.is_allowed
    simp [hnot]
  refine ⟨by rw [hfst], by rw [hfst]; simp, ?_⟩
  rw [hfst]
  have hstate : (fun id2 =>
      if id2 = identity then rl.pruneWindow (requests identity) now else requests id2) identity
      = rl.pruneWindow (requests identity) now := by simp
  have hdrop : (rl.pruneWindow (rl.pruneWindow (requests identity) now) now2).length
      < rl.max_requests := by
    have hlt : (rl.pruneWindow (rl.pruneWindow (requests identity) now) now2).length
        < (rl.pruneWindow (requests identity) now).length := by
      apply length_filter_lt_of_mem ho
      simp only [decide_eq_false_iff_not]
      omega
    omega
  unfold RateLimiter.is_allowed
  simp only [hstate]
  simp [hdrop]

/-- Witness for the C7 theorem: with `max_requests = 2`,
`window_seconds = 10` and admitted timestamps 3 and 4, the call at time 5
is rejected without being recorded, and the call at time 14 (more than 10
past the oldest timestamp 3) is admitted. -/
theorem is_allowed_sliding_window_witness :
    (RateLimiter.is_allowed ⟨2, 10⟩ (fun _ => [3, 4]) "u1" 5).1 = false ∧
    (RateLimiter.is_allowed ⟨2, 10⟩ (fun _ => [3, 4]) "u1" 5).2 "u1"
      = RateLimiter.pruneWindow ⟨2, 10⟩ ((fun _ => [3, 4]) "u1") 5 ∧
    (RateLimiter.is_allowed ⟨2, 10⟩
      (RateLimiter.is_allowed ⟨2, 10⟩ (fun _ => [3, 4]) "u1" 5).2 "u1" 14).1 = true :=
  is_allowed_sliding_window ⟨2, 10⟩ (fun _ => [3, 4]) "u1" 5 14 3
    (by decide) (by decide) (by decide) (by decide)

end MaxBot

